import Mathlib

/-!
Verification of the prompt-construction and response-sanitization pipeline of
`backend/forge_planner_server.py` (the Smithing Storyboarder planning backend).

The Python functions `build_llm_prompt`, `strip_code_fences`,
`safe_parse_llm_json` and the `forge_plan` request handler are embedded as
executable Lean definitions over an explicit JSON value type.  Python's
`json.loads` is modelled by a fueled recursive-descent scanner (`json_loads`)
following the CPython `json` module grammar in its default strict mode,
Python `dict` assignment semantics by `dictSet`, and the builtins
`str.strip`, `str.splitlines`, `str.startswith`, `str`/`repr`, `json.dumps`
and object truthiness by the `py`-prefixed definitions below.  Exceptions
raised by the Python code are made explicit with `Except PyErr`.
-/

/-- A parsed JSON value, as produced by Python's `json.loads`: `null`,
booleans, integers, floats, strings, arrays, and objects (Python `dict`s,
kept as ordered key/value lists with unique keys).  A `float` stores its
source lexeme (CPython's conversion to IEEE 754 and the normalising
`str`/`repr` of the resulting `float` are approximated by the lexeme);
`NaN`, `Infinity` and `-Infinity`, accepted by `json.loads`, are stored as
the lexemes `"nan"`, `"inf"` and `"-inf"`. -/
inductive Json where
  | null
  | bool (b : Bool)
  | int (n : Int)
  | float (lex : String)
  | str (s : String)
  | arr (xs : List Json)
  | obj (kvs : List (String × Json))

/-- The exceptions the embedded code can raise. -/
inductive PyErr where
  | typeError
  | attributeError
deriving DecidableEq

/-! ### Python `dict` operations (insertion-ordered association lists) -/

/-- `d[k]` lookup / `k in d` membership on a Python `dict`. -/
def dictGet : List (String × Json) → String → Option Json
  | [], _ => none
  | (k', v) :: rest, k => if k' = k then some v else dictGet rest k

/-- `d.get(k, default)`. -/
def dictGetD (kvs : List (String × Json)) (k : String) (d : Json) : Json :=
  (dictGet kvs k).getD d

/-- `d[k] = v`: replace in place if `k` is present, else append. -/
def dictSet : List (String × Json) → String → Json → List (String × Json)
  | [], k, v => [(k, v)]
  | (k', v') :: rest, k, v =>
    if k' = k then (k', v) :: rest else (k', v') :: dictSet rest k v

/-- `dict(pairs)`: build a dict from a pair list, later duplicates winning
while keeping the first occurrence's position. -/
def dictOfPairs (ps : List (String × Json)) : List (String × Json) :=
  ps.foldl (fun d p => dictSet d p.1 p.2) []

/-! ### Python string builtins -/

/-- Characters stripped by `str.strip()` (the Unicode whitespace set of
`str.isspace`). -/
def pyWs (c : Char) : Bool :=
  let n := c.toNat
  n = 32 || (9 ≤ n && n ≤ 13) || (28 ≤ n && n ≤ 31) || n = 0x85 || n = 0xa0 ||
  n = 0x1680 || (0x2000 ≤ n && n ≤ 0x200a) || n = 0x2028 || n = 0x2029 ||
  n = 0x202f || n = 0x205f || n = 0x3000

/-- Line boundaries recognised by `str.splitlines` (with `\r\n` counted as a
single boundary by the function below). -/
def pyLineSep (c : Char) : Bool :=
  let n := c.toNat
  (10 ≤ n && n ≤ 13) || (28 ≤ n && n ≤ 30) || n = 0x85 || n = 0x2028 || n = 0x2029

/-- `str.strip()` on the character list. -/
def pyStripL (cs : List Char) : List Char :=
  ((cs.dropWhile pyWs).reverse.dropWhile pyWs).reverse

/-- `str.strip()`. -/
def pyStrip (s : String) : String := ⟨pyStripL s.data⟩

/-- `startsWithL pre cs`: does `cs` start with `pre`? -/
def startsWithL : List Char → List Char → Bool
  | [], _ => true
  | _ :: _, [] => false
  | p :: ps, c :: cs => p == c && startsWithL ps cs

/-- `s.startswith(pre)`. -/
def pyStartsWith (s pre : String) : Bool := startsWithL pre.data s.data

/-- Worker for `str.splitlines`: `acc` holds the current line reversed; a
`"\r\n"` pair counts as one boundary.  The fuel argument only bounds the
recursion (it drops by exactly one per character consumed, so
`length + 1` never runs out). -/
def pySplitlinesF : Nat → List Char → List Char → List String
  | 0, _, _ => []
  | _ + 1, [], acc => if acc.isEmpty then [] else [⟨acc.reverse⟩]
  | f + 1, c :: rest, acc =>
    if pyLineSep c then
      ⟨acc.reverse⟩ ::
        pySplitlinesF f (if c = '\r' ∧ rest.head? = some '\n' then rest.tail else rest) []
    else pySplitlinesF f rest (c :: acc)

/-- `str.splitlines()`. -/
def pySplitlines (s : String) : List String :=
  pySplitlinesF (s.data.length + 1) s.data []

/-- `"\n".join(lines)`. -/
def joinNL : List String → String
  | [] => ""
  | [s] => s
  | s :: rest => s ++ "\n" ++ joinNL rest

/-! ### `json.loads` (CPython `json` module grammar, strict mode) -/

/-- JSON inter-token whitespace (`json` module: space, tab, newline, CR). -/
def jsonWs (c : Char) : Bool :=
  c.toNat = 32 || c.toNat = 9 || c.toNat = 10 || c.toNat = 13

def skipWs (cs : List Char) : List Char := cs.dropWhile jsonWs

def hexVal (c : Char) : Option Nat :=
  let n := c.toNat
  if 48 ≤ n && n ≤ 57 then some (n - 48)
  else if 97 ≤ n && n ≤ 102 then some (n - 87)
  else if 65 ≤ n && n ≤ 70 then some (n - 55)
  else none

/-- Four hex digits of a `\uXXXX` escape. -/
def hex4 : List Char → Option (Nat × List Char)
  | c1 :: c2 :: c3 :: c4 :: rest =>
    match hexVal c1, hexVal c2, hexVal c3, hexVal c4 with
    | some v1, some v2, some v3, some v4 =>
      some (v1 * 0x1000 + v2 * 0x100 + v3 * 0x10 + v4, rest)
    | _, _, _, _ => none
  | _ => none

/-- A scalar for a BMP code unit.  CPython strings can hold lone surrogates;
Lean strings cannot, so those are mapped to U+FFFD. -/
def codeToChar (n : Nat) : Char :=
  if 0xd800 ≤ n ∧ n ≤ 0xdfff then '\uFFFD' else Char.ofNat n

/-- String body after the opening quote (`py_scanstring`, strict mode:
raw control characters are rejected; `\uXXXX` escapes combine surrogate
pairs). -/
def parseStringBody : Nat → List Char → List Char → Option (String × List Char)
  | 0, _, _ => none
  | _ + 1, [], _ => none
  | f + 1, c :: rest, acc =>
    if c = '"' then some (⟨acc.reverse⟩, rest)
    else if c = '\\' then
      match rest with
      | [] => none
      | e :: rest2 =>
        if e = '"' then parseStringBody f rest2 ('"' :: acc)
        else if e = '\\' then parseStringBody f rest2 ('\\' :: acc)
        else if e = '/' then parseStringBody f rest2 ('/' :: acc)
        else if e = 'b' then parseStringBody f rest2 ('\x08' :: acc)
        else if e = 'f' then parseStringBody f rest2 ('\x0c' :: acc)
        else if e = 'n' then parseStringBody f rest2 ('\n' :: acc)
        else if e = 'r' then parseStringBody f rest2 ('\r' :: acc)
        else if e = 't' then parseStringBody f rest2 ('\t' :: acc)
        else if e = 'u' then
          match hex4 rest2 with
          | none => none
          | some (n, rest3) =>
            if 0xd800 ≤ n ∧ n < 0xdc00 then
              match rest3 with
              | '\\' :: 'u' :: rest4 =>
                match hex4 rest4 with
                | some (m, rest5) =>
                  if 0xdc00 ≤ m ∧ m < 0xe000 then
                    parseStringBody f rest5
                      (Char.ofNat (0x10000 + (n - 0xd800) * 0x400 + (m - 0xdc00)) :: acc)
                  else parseStringBody f rest3 (codeToChar n :: acc)
                | none => parseStringBody f rest3 (codeToChar n :: acc)
              | _ => parseStringBody f rest3 (codeToChar n :: acc)
            else parseStringBody f rest3 (codeToChar n :: acc)
        else none
    else if c.toNat < 0x20 then none
    else parseStringBody f rest (c :: acc)

def intFromDigits (ds : List Char) : Int :=
  Int.ofNat (ds.foldl (fun a c => 10 * a + (c.toNat - 48)) 0)

/-- Finish a number token after its integer digits, per the scanner regex
`(-?(?:0|[1-9]\d*))(\.\d+)?([eE][-+]?\d+)?`: an unmatched fraction or
exponent is simply left in the remaining input. -/
def finishNum (sign : Bool) (ds : List Char) (r : List Char) : Option (Json × List Char) :=
  let fr : Option (List Char) × List Char :=
    match r with
    | '.' :: r' =>
      match List.span Char.isDigit r' with
      | ([], _) => (none, r)
      | (fs, r'') => (some fs, r'')
    | _ => (none, r)
  let ex : Option (List Char) × List Char :=
    match fr.2 with
    | e :: r' =>
      if e = 'e' ∨ e = 'E' then
        match r' with
        | s :: r'' =>
          if s = '+' ∨ s = '-' then
            match List.span Char.isDigit r'' with
            | ([], _) => (none, fr.2)
            | (es, r3) => (some (e :: s :: es), r3)
          else
            match List.span Char.isDigit r' with
            | ([], _) => (none, fr.2)
            | (es, r3) => (some (e :: es), r3)
        | [] => (none, fr.2)
      else (none, fr.2)
    | [] => (none, fr.2)
  match fr.1, ex.1 with
  | none, none =>
    let n := intFromDigits ds
    some (.int (if sign then -n else n), ex.2)
  | frac, expo =>
    let lex :=
      (if sign then "-" else "") ++ (⟨ds⟩ : String) ++
      (match frac with | some fs => "." ++ (⟨fs⟩ : String) | none => "") ++
      (match expo with | some es => (⟨es⟩ : String) | none => "")
    some (.float lex, ex.2)

/-- A number token (also `-Infinity`, which `json.loads` accepts). -/
def parseNumber (cs : List Char) : Option (Json × List Char) :=
  match cs with
  | '-' :: 'I' :: 'n' :: 'f' :: 'i' :: 'n' :: 'i' :: 't' :: 'y' :: rest =>
    some (.float "-inf", rest)
  | _ =>
    let sign := match cs with | '-' :: _ => true | _ => false
    let cs1 := match cs with | '-' :: r => r | _ => cs
    match cs1 with
    | '0' :: r => finishNum sign ['0'] r
    | c :: r =>
      if c.isDigit then
        match List.span Char.isDigit (c :: r) with
        | (ds, r2) => finishNum sign ds r2
      else none
    | [] => none

mutual

/-- One JSON value (`scanner.py`'s `_scan_once`).  Fuel decreases on every
recursive call; `json_loads` supplies enough for any input. -/
def parseVal : Nat → List Char → Option (Json × List Char)
  | 0, _ => none
  | f + 1, cs =>
    match cs with
    | [] => none
    | '{' :: rest =>
      (match skipWs rest with
       | '}' :: rest2 => some (.obj [], rest2)
       | cs1 => (parseMembers f cs1 []).map fun p => (Json.obj (dictOfPairs p.1), p.2))
    | '[' :: rest =>
      (match skipWs rest with
       | ']' :: rest2 => some (.arr [], rest2)
       | cs1 => (parseItems f cs1 []).map fun p => (Json.arr p.1, p.2))
    | '"' :: rest => (parseStringBody f rest []).map fun p => (Json.str p.1, p.2)
    | 't' :: 'r' :: 'u' :: 'e' :: rest => some (.bool true, rest)
    | 'f' :: 'a' :: 'l' :: 's' :: 'e' :: rest => some (.bool false, rest)
    | 'n' :: 'u' :: 'l' :: 'l' :: rest => some (.null, rest)
    | 'N' :: 'a' :: 'N' :: rest => some (.float "nan", rest)
    | 'I' :: 'n' :: 'f' :: 'i' :: 'n' :: 'i' :: 't' :: 'y' :: rest => some (.float "inf", rest)
    | _ => parseNumber cs

/-- Members of a non-empty object, positioned at a key. -/
def parseMembers : Nat → List Char → List (String × Json) →
    Option (List (String × Json) × List Char)
  | 0, _, _ => none
  | f + 1, cs, acc =>
    match cs with
    | '"' :: rest =>
      (match parseStringBody f rest [] with
       | none => none
       | some (k, r1) =>
         match skipWs r1 with
         | ':' :: r2 =>
           (match parseVal f (skipWs r2) with
            | none => none
            | some (v, r3) =>
              match skipWs r3 with
              | ',' :: r4 => parseMembers f (skipWs r4) ((k, v) :: acc)
              | '}' :: r4 => some (((k, v) :: acc).reverse, r4)
              | _ => none)
         | _ => none)
    | _ => none

/-- Items of a non-empty array, positioned at a value. -/
def parseItems : Nat → List Char → List Json → Option (List Json × List Char)
  | 0, _, _ => none
  | f + 1, cs, acc =>
    match parseVal f cs with
    | none => none
    | some (v, r1) =>
      match skipWs r1 with
      | ',' :: r2 => parseItems f (skipWs r2) (v :: acc)
      | ']' :: r2 => some ((v :: acc).reverse, r2)
      | _ => none

end

/-- `json.loads`: skip leading whitespace, scan one value, require only
whitespace after it.  The fuel bound exceeds the scanner's recursion
count for any input (each unit of fuel consumes at least half a
character). -/
def json_loads (s : String) : Option Json :=
  match parseVal (2 * s.data.length + 8) (skipWs s.data) with
  | some (j, rest) => if skipWs rest = [] then some j else none
  | none => none

/-! ### Python truthiness, `str()` / `repr()` -/

/-- Does a float literal denote numeric zero (all mantissa digits `0`)? -/
def floatLexIsZero (lex : String) : Bool :=
  (lex.data.takeWhile fun c => !(c == 'e' || c == 'E')).all
    fun c => c == '0' || c == '.' || c == '-' || c == '+'

/-- Python truthiness (`bool(x)`) on JSON-derived values. -/
def pyTruthy : Json → Bool
  | .null => false
  | .bool b => b
  | .int n => !(n == 0)
  | .float lex => !floatLexIsZero lex
  | .str s => !(s == "")
  | .arr xs => !xs.isEmpty
  | .obj kvs => !kvs.isEmpty

/-- Python's short-circuit `a or b` on values. -/
def pyOr (a b : Json) : Json := if pyTruthy a then a else b

def jsonIsStr : Json → Bool
  | .str _ => true
  | _ => false

def jsonIsObj : Json → Bool
  | .obj _ => true
  | _ => false

def hex2digit (n : Nat) : Char :=
  if n < 10 then Char.ofNat ('0'.toNat + n) else Char.ofNat ('a'.toNat + (n - 10))

/-- `repr` of a Python `str` with a fixed quote character: escapes the
backslash, the quote, and (as `\xHH` / named escapes) control characters.
Printable characters, including non-ASCII ones, are kept as-is. -/
def pyReprStrWith (q : Char) (s : String) : String :=
  String.join (s.data.map fun c =>
    if c = '\\' then "\\\\"
    else if c = q then "\\" ++ String.singleton q
    else if c = '\n' then "\\n"
    else if c = '\r' then "\\r"
    else if c = '\t' then "\\t"
    else if c.toNat < 0x20 ∨ c.toNat = 0x7f then
      "\\x" ++ String.singleton (hex2digit (c.toNat / 16)) ++ String.singleton (hex2digit (c.toNat % 16))
    else String.singleton c)

/-- `repr` of a Python `str`: single quotes, switching to double quotes when
the text holds a single quote but no double quote. -/
def pyReprStr (s : String) : String :=
  if s.data.contains '\'' && !(s.data.contains '"') then
    "\"" ++ pyReprStrWith '"' s ++ "\""
  else "'" ++ pyReprStrWith '\'' s ++ "'"

def joinCommaSp : List String → String
  | [] => ""
  | [s] => s
  | s :: rest => s ++ ", " ++ joinCommaSp rest

mutual

/-- Python `repr` on JSON-derived values (which for everything except `str`
coincides with `str()`): `None`/`True`/`False`, decimal integers, and
bracketed containers with `repr`d elements. -/
def pyRepr : Json → String
  | .null => "None"
  | .bool true => "True"
  | .bool false => "False"
  | .int n => toString n
  | .float lex => lex
  | .str s => pyReprStr s
  | .arr xs => "[" ++ joinCommaSp (pyReprItems xs) ++ "]"
  | .obj kvs => "\x7b" ++ joinCommaSp (pyReprPairs kvs) ++ "\x7d"

def pyReprItems : List Json → List String
  | [] => []
  | x :: xs => pyRepr x :: pyReprItems xs

def pyReprPairs : List (String × Json) → List String
  | [] => []
  | (k, v) :: rest => (pyReprStr k ++ ": " ++ pyRepr v) :: pyReprPairs rest

end

/-- Python `str(x)` on JSON-derived values: the identity on strings and
`repr` on everything else. -/
def pyStr : Json → String
  | .str s => s
  | v => pyRepr v

/-! ### `json.dumps(..., indent=2, sort_keys=True)` -/

/-- A JSON string literal as `json.dumps` writes it (`ensure_ascii=True`:
non-ASCII characters become `\uXXXX` escapes, astral ones a surrogate
pair). -/
def jsonQuoteChar (c : Char) : String :=
  if c = '"' then "\\\""
  else if c = '\\' then "\\\\"
  else if c = '\n' then "\\n"
  else if c = '\r' then "\\r"
  else if c = '\t' then "\\t"
  else if c = '\x08' then "\\b"
  else if c = '\x0c' then "\\f"
  else if c.toNat < 0x20 ∨ c.toNat > 0x7e then
    if c.toNat ≥ 0x10000 then
      let v := c.toNat - 0x10000
      "\\u" ++ String.mk (Nat.toDigits 16 (0xd800 + v / 0x400)) ++
      "\\u" ++ String.mk (Nat.toDigits 16 (0xdc00 + v % 0x400))
    else
      "\\u" ++ String.mk (List.replicate (4 - (Nat.toDigits 16 c.toNat).length) '0') ++
      String.mk (Nat.toDigits 16 c.toNat)
  else String.singleton c

def jsonQuote (s : String) : String :=
  "\"" ++ String.join (s.data.map jsonQuoteChar) ++ "\""

/-- Key comparison for `sort_keys=True` (code-point lexicographic `<=`). -/
def keyLe (a b : String) : Bool := !decide (b < a)

def insertPair (p : String × Json) : List (String × Json) → List (String × Json)
  | [] => [p]
  | q :: rest => if keyLe p.1 q.1 then p :: q :: rest else q :: insertPair p rest

def sortPairs : List (String × Json) → List (String × Json)
  | [] => []
  | p :: rest => insertPair p (sortPairs rest)

mutual

def jsonSize : Json → Nat
  | .arr xs => 1 + jsonSizeItems xs
  | .obj kvs => 1 + jsonSizePairs kvs
  | _ => 1

def jsonSizeItems : List Json → Nat
  | [] => 1
  | x :: xs => 1 + jsonSize x + jsonSizeItems xs

def jsonSizePairs : List (String × Json) → Nat
  | [] => 1
  | (_, v) :: rest => 1 + jsonSize v + jsonSizePairs rest

end

def indentStr (lvl : Nat) : String := String.mk (List.replicate (2 * lvl) ' ')

def joinCommaNL : List String → String
  | [] => ""
  | [s] => s
  | s :: rest => s ++ ",\n" ++ joinCommaNL rest

mutual

/-- `json.dumps(j, indent=2, sort_keys=True)` body at nesting level `lvl`.
Fuel only bounds the recursion (objects recurse through their sorted field
list); `pyDumps` supplies more than the structure can consume. -/
def dumpsVal : Nat → Json → Nat → String
  | 0, _, _ => ""
  | _ + 1, .null, _ => "null"
  | _ + 1, .bool true, _ => "true"
  | _ + 1, .bool false, _ => "false"
  | _ + 1, .int n, _ => toString n
  | _ + 1, .float lex, _ => lex
  | _ + 1, .str s, _ => jsonQuote s
  | _ + 1, .arr [], _ => "[]"
  | f + 1, .arr (x :: xs), lvl =>
    "[\n" ++ joinCommaNL (dumpsItems f (x :: xs) (lvl + 1)) ++ "\n" ++ indentStr lvl ++ "]"
  | _ + 1, .obj [], _ => "\x7b\x7d"
  | f + 1, .obj (p :: ps), lvl =>
    "\x7b\n" ++ joinCommaNL (dumpsPairs f (sortPairs (p :: ps)) (lvl + 1)) ++ "\n" ++
      indentStr lvl ++ "\x7d"

def dumpsItems : Nat → List Json → Nat → List String
  | 0, _, _ => []
  | _ + 1, [], _ => []
  | f + 1, x :: xs, lvl => (indentStr lvl ++ dumpsVal f x lvl) :: dumpsItems f xs lvl

def dumpsPairs : Nat → List (String × Json) → Nat → List String
  | 0, _, _ => []
  | _ + 1, [], _ => []
  | f + 1, (k, v) :: rest, lvl =>
    (indentStr lvl ++ jsonQuote k ++ ": " ++ dumpsVal f v lvl) :: dumpsPairs f rest lvl

end

/-- `json.dumps(j, indent=2, sort_keys=True)`. -/
def pyDumps (j : Json) : String := dumpsVal (jsonSize j) j 0

/-! ### The embedded source functions of `backend/forge_planner_server.py` -/

/-- `build_llm_prompt(spec, schema, context)` (lines 55-95): serialize the
schema and context bundles and concatenate the fixed instruction block.
The chain of `++` mirrors the adjacent string literals of the Python
source. -/
def build_llm_prompt (spec : String) (schema context : List (String × Json)) : String :=
  let schema_json := pyDumps (Json.obj schema)
  let context_json := pyDumps (Json.obj context)
  pyStrip spec
    ++ "\n\n"
    ++ "You are now running inside a local planning backend.\n"
    ++ "You are given the planner schema and context as JSON.\n"
    ++ "Use them to generate a SHORT sequence of forging operations.\n\n"
    ++ "SCHEMA (operations + paramSchemas + extras):\n"
    ++ schema_json ++ "\n\n"
    ++ "PLANNER CONTEXT:\n"
    ++ context_json ++ "\n\n"
    ++ "Output requirements:\n"
    ++ "1. Respond with a single JSON object only. No prose, no markdown, no backticks.\n"
    ++ "2. Shape MUST be:\n"
    ++ "   \x7b \"steps\": [ \x7b \"operationType\": string, \"params\": object \x7d ],\n"
    ++ "     \"notes\": \"optional string\" \x7d\n"
    ++ "3. For each step:\n"
    ++ "   - operationType must be one of the known operation ids from schema.operations.\n"
    ++ "   - params keys must come from the canonical paramSchemas for that operation,\n"
    ++ "     plus generic fields like lengthRegion, location, distanceFromEnd,\n"
    ++ "     volumeDeltaOverride, description.\n"
    ++ "4. Use 3–12 steps if possible. Prefer simple, beginner-friendly plans.\n"
    ++ "5. Keep net volume close to the target volume. Small conservative loss is OK.\n"
    ++ "\n"
    ++ "Return ONLY the JSON object. Do NOT wrap it in ```json``` or any other text."

/-- `strip_code_fences(text)` (lines 98-115). -/
def strip_code_fences (text : String) : String :=
  if text = "" then text
  else
    let stripped := pyStrip text
    if pyStartsWith stripped "```" = true then
      let lines := pySplitlines stripped
      if 2 ≤ lines.length ∧ pyStartsWith (lines.headD "") "```" = true then
        let lines1 := lines.tail
        let lines2 :=
          if (!lines1.isEmpty && pyStartsWith (pyStrip (lines1.getLastD "")) "```") = true then
            lines1.dropLast
          else lines1
        pyStrip (joinNL lines2)
      else stripped
    else stripped

/-- The fallback object `safe_parse_llm_json` returns when `json.loads`
raises (lines 129-132). -/
def fallbackPlan : Json :=
  .obj [("steps", .arr []),
        ("notes", .str "LLM output was not valid JSON; falling back to empty plan.")]

/-- `"steps" in data and isinstance(data["steps"], list)` on a dict. -/
def stepsIsList (kvs : List (String × Json)) : Bool :=
  match dictGet kvs "steps" with
  | some (.arr _) => true
  | _ => false

/-- Line 135: `if "steps" not in data or not isinstance(data["steps"], list):
data["steps"] = []`. -/
def fixSteps (kvs : List (String × Json)) : List (String × Json) :=
  if stepsIsList kvs then kvs else dictSet kvs "steps" (.arr [])

/-- Lines 138-141: coerce `data["notes"]` to a string (`str(...)` if present
with a non-`str` value, `""` if absent). -/
def fixNotes (kvs : List (String × Json)) : List (String × Json) :=
  match dictGet kvs "notes" with
  | some (.str _) => kvs
  | some v => dictSet kvs "notes" (.str (pyStr v))
  | none => dictSet kvs "notes" (.str "")

/-- `safe_parse_llm_json(raw_text)` (lines 118-143).  When the cleaned text
parses to a JSON value that is not an object, line 135 raises `TypeError`
(`"steps" not in data` on an `int`/`float`/`bool`/`None` is not iterable;
`data["steps"]` / `data["steps"] = []` on a `list` or `str` rejects the
string index), so those branches surface the exception. -/
def safe_parse_llm_json (raw_text : String) : Except PyErr Json :=
  let cleaned := strip_code_fences raw_text
  match json_loads cleaned with
  | none => .ok fallbackPlan
  | some (.obj kvs) => .ok (.obj (fixNotes (fixSteps kvs)))
  | some _ => .error .typeError

/-- The upstream HTTP response as `requests` exposes it: a status code and
a body text (`resp.ok` is `status_code < 400`; `resp.json()` parses the
body). -/
structure HttpResp where
  status : Nat
  body : String

/-- Outcome of the one outbound `requests.post` call: either a raised
`requests.RequestException` (connection failure or timeout) or a response. -/
inductive CallResult where
  | exn
  | resp (r : HttpResp)

/-- `resp.ok`. -/
def respOk (r : HttpResp) : Bool := decide (r.status < 400)

/-- Lines 221-265 of `forge_plan`: the outbound call and the mapping of its
outcome to a `(payload, status)` pair.  A success envelope that is valid
JSON but not an object raises `AttributeError` at
`ollama_json.get("response", "")`; an object envelope whose `"response"`
value is a truthy non-string raises `AttributeError` at `text.strip()`
inside `strip_code_fences`, while a falsy non-string makes `json.loads`
raise `TypeError`, which line 127 catches, yielding the fallback plan. -/
def dispatch (call : CallResult) : Except PyErr (Json × Nat) :=
  match call with
  | .exn =>
    .ok (.obj [("steps", .arr []),
               ("notes", .str "Local LLM server unavailable; use heuristic planner.")], 502)
  | .resp r =>
    if !respOk r then
      .ok (.obj [("steps", .arr []),
                 ("notes", .str "Local LLM returned an error; use heuristic planner.")], 502)
    else
      match json_loads r.body with
      | none =>
        .ok (.obj [("steps", .arr []),
                   ("notes", .str "Local LLM responded with invalid JSON; using empty plan.")], 502)
      | some (.obj kvs) =>
        match dictGetD kvs "response" (.str "") with
        | .str s => (safe_parse_llm_json s).map fun plan => (plan, 200)
        | v => if pyTruthy v then .error .attributeError else .ok (fallbackPlan, 200)
      | some _ => .error .attributeError

/-- The `forge_plan` POST handler (lines 180-265), as a function of the
request body text and of the outcome of the outbound call.  A body that is
not valid JSON is caught and answered with status 400 (Flask's
`request.get_json(force=True)` raises there); a body that is valid JSON
but not an object raises `AttributeError` at `payload.get("spec")`, as
does a truthy non-string `spec` at `spec.strip()` inside
`build_llm_prompt`. -/
def forge_plan (body : String) (call : CallResult) : Except PyErr (Json × Nat) :=
  match json_loads body with
  | none =>
    .ok (.obj [("steps", .arr []),
               ("notes", .str "Backend received invalid JSON from frontend.")], 400)
  | some (.obj kvs) =>
    let specVal := pyOr (dictGetD kvs "spec" .null) (.str "")
    let schemaVal := pyOr (dictGetD kvs "schema" .null) (.obj [])
    let contextVal := pyOr (dictGetD kvs "context" .null) (.obj [])
    let schema := match schemaVal with | .obj m => m | _ => []
    let context := match contextVal with | .obj m => m | _ => []
    match specVal with
    | .str s =>
      let _prompt := build_llm_prompt s schema context
      dispatch call
    | _ => .error .attributeError
  | some _ => .error .attributeError

/-- The `steps`/`notes` coercion of `safe_parse_llm_json` lines 138-141, as a
value transformer: a string value is kept, a non-string value is passed
through Python `str()`, an absent value becomes the empty string. -/
def notesCoerce : Option Json → String
  | some (.str n) => n
  | some v => pyStr v
  | none => ""

/-- The fixed instruction line of the prompt that directs
single-JSON-object-only output. -/
def jsonOnlyInstruction : String :=
  "1. Respond with a single JSON object only. No prose, no markdown, no backticks.\n"

/-! ## Supporting lemmas -/

theorem dictGet_dictSet_same (kvs : List (String × Json)) (k : String) (v : Json) :
    dictGet (dictSet kvs k v) k = some v := by
  induction kvs with
  | nil => simp [dictSet, dictGet]
  | cons p rest ih =>
    obtain ⟨k', v'⟩ := p
    by_cases h : k' = k
    · simp [dictSet, dictGet, h]
    · simp [dictSet, dictGet, h, ih]

theorem dictGet_dictSet_ne (kvs : List (String × Json)) (k : String) (v : Json)
    (k' : String) (h : k' ≠ k) :
    dictGet (dictSet kvs k v) k' = dictGet kvs k' := by
  have hne : ¬ (k = k') := fun hh => h hh.symm
  induction kvs with
  | nil => simp [dictSet, dictGet, hne]
  | cons p rest ih =>
    obtain ⟨k0, v0⟩ := p
    by_cases h0 : k0 = k
    · subst h0
      simp [dictSet, dictGet, hne]
    · simp [dictSet, dictGet, h0, ih]

theorem fixSteps_of_list (kvs : List (String × Json)) (xs : List Json)
    (h : dictGet kvs "steps" = some (.arr xs)) : fixSteps kvs = kvs := by
  simp [fixSteps, stepsIsList, h]

theorem fixNotes_of_str (kvs : List (String × Json)) (n : String)
    (h : dictGet kvs "notes" = some (.str n)) : fixNotes kvs = kvs := by
  simp [fixNotes, h]

theorem dictGet_fixSteps_ne (kvs : List (String × Json)) (k : String)
    (h : k ≠ "steps") : dictGet (fixSteps kvs) k = dictGet kvs k := by
  unfold fixSteps
  split
  · rfl
  · exact dictGet_dictSet_ne kvs "steps" (.arr []) k h

theorem dictGet_fixNotes_ne (kvs : List (String × Json)) (k : String)
    (h : k ≠ "notes") : dictGet (fixNotes kvs) k = dictGet kvs k := by
  unfold fixNotes
  split
  · rfl
  · exact dictGet_dictSet_ne kvs "notes" _ k h
  · exact dictGet_dictSet_ne kvs "notes" _ k h

theorem dictGet_fixSteps_steps (kvs : List (String × Json))
    (h : stepsIsList kvs = false) :
    dictGet (fixSteps kvs) "steps" = some (.arr []) := by
  simp [fixSteps, h, dictGet_dictSet_same]

theorem dictGet_fixNotes_notes (kvs : List (String × Json)) :
    dictGet (fixNotes kvs) "notes" = some (.str (notesCoerce (dictGet kvs "notes"))) := by
  rcases hd : dictGet kvs "notes" with _ | v
  · simp [fixNotes, hd, notesCoerce, dictGet_dictSet_same]
  · rcases v with _ | b | n | lex | s | xs | kvs2
    all_goals simp [fixNotes, hd, notesCoerce, dictGet_dictSet_same]

theorem safe_parse_of_obj (raw : String) (kvs : List (String × Json))
    (hp : json_loads (strip_code_fences raw) = some (.obj kvs)) :
    safe_parse_llm_json raw = .ok (.obj (fixNotes (fixSteps kvs))) := by
  simp only [safe_parse_llm_json]
  rw [hp]


theorem pyWs_of_lineSep (c : Char) (h : pyLineSep c = true) : pyWs c = true := by
  simp only [pyLineSep, pyWs, Bool.or_eq_true, Bool.and_eq_true, decide_eq_true_eq] at h ⊢
  omega

theorem dropWhile_head_not (p : Char → Bool) (l : List Char)
    (h : ∀ c, l.head? = some c → p c = false) : l.dropWhile p = l := by
  cases l with
  | nil => rfl
  | cons a l2 =>
    rw [List.dropWhile_cons, h a rfl]
    simp

theorem mem_of_getLastEq (l : List Char) (a : Char) (h : l.getLast? = some a) : a ∈ l := by
  obtain ⟨hne, heq⟩ := List.mem_getLast?_eq_getLast (x := a) (l := l) (by rw [h]; rfl)
  subst heq
  exact List.getLast_mem hne

theorem pyStripL_eq_self (l : List Char)
    (h1 : ∀ c, l.head? = some c → pyWs c = false)
    (h2 : ∀ c, l.getLast? = some c → pyWs c = false) : pyStripL l = l := by
  unfold pyStripL
  rw [dropWhile_head_not pyWs l h1]
  rw [dropWhile_head_not pyWs l.reverse
    (fun c hc => h2 c (by rwa [List.head?_reverse] at hc))]
  exact List.reverse_reverse l

theorem pySplitlinesF_nobreak (ts : List Char) (hts : ∀ c, c ∈ ts → pyWs c = false) :
    ∀ f rest acc, pySplitlinesF (ts.length + f) (ts ++ rest) acc =
      pySplitlinesF f rest (ts.reverse ++ acc) := by
  induction ts with
  | nil => intro f rest acc; simp
  | cons c ts2 ih =>
    intro f rest acc
    have hc : pyWs c = false := hts c (List.mem_cons_self c ts2)
    have hls : pyLineSep c = false := by
      by_contra hq
      rw [Bool.not_eq_false] at hq
      have h2 := pyWs_of_lineSep c hq
      rw [hc] at h2
      exact Bool.noConfusion h2
    have harith : (c :: ts2).length + f = (ts2.length + f) + 1 := by
      simp [List.length_cons]
      omega
    rw [List.cons_append, harith]
    simp only [pySplitlinesF, hls, Bool.false_eq_true, if_false]
    rw [ih (fun d hd => hts d (List.mem_cons_of_mem c hd)) f rest (c :: acc)]
    simp [List.reverse_cons, List.append_assoc]

theorem pySplitlinesF_step (f : Nat) (c : Char) (l acc : List Char) (h : pyLineSep c = false) :
    pySplitlinesF (f + 1) (c :: l) acc = pySplitlinesF f l (c :: acc) := by
  simp [pySplitlinesF, h]

theorem pySplitlinesF_consume (ts : List Char) (hts : ∀ c, c ∈ ts → pyWs c = false)
    (f : Nat) (acc : List Char) :
    pySplitlinesF (ts.length + f) ts acc = pySplitlinesF f [] (ts.reverse ++ acc) := by
  have h2 := pySplitlinesF_nobreak ts hts f [] acc
  rwa [List.append_nil] at h2

/-! ## Claims -/

/-- Claim C1: the spec guarantees that `sanitize` (`safe_parse_llm_json`)
never raises and always returns a Plan-shaped value, including when the
input parses as a JSON value that is not an object.  The code violates
this: on the input `"[]"` the cleaned text parses to a JSON list, and line
135 (`data["steps"] = []`) raises `TypeError`. -/
theorem C1_safe_parse_raises_on_json_list :
    safe_parse_llm_json "[]" = .error .typeError := rfl

/-- Claim C2: the spec guarantees that no input causes an unhandled
exception to escape the handler.  The code violates this: a request body
that is valid JSON but not an object (here `"[]"`) reaches
`payload.get("spec")`, which raises `AttributeError` regardless of the
upstream call's outcome. -/
theorem C2_forge_plan_raises_on_array_body :
    forge_plan "[]" CallResult.exn = .error .attributeError := rfl

/-- Claim C4, counterexample: the claim quantifies over all input text that
is not valid JSON, but a fenced empty object is not valid JSON and still
does not produce the designated fallback plan — the fences are stripped
first, the remainder parses, and the result carries `notes = ""` rather
than the fallback message. -/
theorem C4_fenced_object_counterexample :
    json_loads "```\n\x7b\x7d\n```" = none ∧
    safe_parse_llm_json "```\n\x7b\x7d\n```" =
      .ok (.obj [("steps", .arr []), ("notes", .str "")]) ∧
    ("" : String) ≠ "LLM output was not valid JSON; falling back to empty plan." :=
  ⟨rfl, rfl, by decide⟩

/-- Claim C4, amended: for all input text whose fence-stripped form fails to
parse as JSON, `sanitize` returns exactly
`\x7bsteps: [], notes: "LLM output was not valid JSON; falling back to empty
plan."\x7d` — the single recovery path for malformed text after fence
stripping. -/
theorem C4_unparseable_text_yields_fallback (raw : String)
    (h : json_loads (strip_code_fences raw) = none) :
    safe_parse_llm_json raw = .ok fallbackPlan := by
  simp only [safe_parse_llm_json]
  rw [h]

/-- Witness for C4 at the concrete non-JSON input `"hello"`. -/
theorem C4_unparseable_text_yields_fallback_witness :
    safe_parse_llm_json "hello" = .ok fallbackPlan :=
  C4_unparseable_text_yields_fallback "hello" rfl

/-- Claim C5: for every text whose fence-stripped form parses as a JSON
object with a `steps` list and a string `notes` — which covers both plain
and ```-fenced Plan-shaped JSON — `sanitize` returns the parsed object
unchanged, so `steps` and `notes` round-trip identically. -/
theorem C5_plan_round_trip (raw : String) (kvs : List (String × Json))
    (steps : List Json) (n : String)
    (hp : json_loads (strip_code_fences raw) = some (.obj kvs))
    (hs : dictGet kvs "steps" = some (.arr steps))
    (hn : dictGet kvs "notes" = some (.str n)) :
    safe_parse_llm_json raw = .ok (.obj kvs) := by
  rw [safe_parse_of_obj raw kvs hp, fixSteps_of_list kvs steps hs, fixNotes_of_str kvs n hn]

/-- Witness for C5 at a plain and at a fenced Plan-shaped input. -/
theorem C5_plan_round_trip_witness :
    safe_parse_llm_json "\x7b\"steps\": [1], \"notes\": \"ok\"\x7d" =
      .ok (.obj [("steps", .arr [.int 1]), ("notes", .str "ok")]) ∧
    safe_parse_llm_json "```json\n\x7b\"steps\": [], \"notes\": \"ok\"\x7d\n```" =
      .ok (.obj [("steps", .arr []), ("notes", .str "ok")]) :=
  ⟨C5_plan_round_trip "\x7b\"steps\": [1], \"notes\": \"ok\"\x7d"
      [("steps", .arr [.int 1]), ("notes", .str "ok")] [.int 1] "ok" rfl rfl rfl,
   C5_plan_round_trip "```json\n\x7b\"steps\": [], \"notes\": \"ok\"\x7d\n```"
      [("steps", .arr []), ("notes", .str "ok")] [] "ok" rfl rfl rfl⟩

/-- Claim C7: for every JSON-object input whose `steps` key is missing or
not a list, `sanitize` keeps the plan and replaces `steps` by the empty
list; `notes` is kept when a string, coerced through Python `str()` when
present and not a string, and defaulted to `""` when absent (the three
cases folded into `notesCoerce`). -/
theorem C7_steps_defaulted_notes_coerced (raw : String) (kvs : List (String × Json))
    (hp : json_loads (strip_code_fences raw) = some (.obj kvs))
    (hbad : stepsIsList kvs = false) :
    ∃ kvs2, safe_parse_llm_json raw = .ok (.obj kvs2) ∧
      dictGet kvs2 "steps" = some (.arr []) ∧
      dictGet kvs2 "notes" = some (.str (notesCoerce (dictGet kvs "notes"))) := by
  refine ⟨fixNotes (fixSteps kvs), safe_parse_of_obj raw kvs hp, ?_, ?_⟩
  · rw [dictGet_fixNotes_ne _ _ (by decide), dictGet_fixSteps_steps kvs hbad]
  · rw [dictGet_fixNotes_notes, dictGet_fixSteps_ne _ _ (by decide)]

/-- Witness for C7 at the concrete input with no `steps` and integer
`notes`. -/
theorem C7_steps_defaulted_notes_coerced_witness :
    ∃ kvs2, safe_parse_llm_json "\x7b\"notes\": 5\x7d" = .ok (.obj kvs2) ∧
      dictGet kvs2 "steps" = some (.arr []) ∧
      dictGet kvs2 "notes" =
        some (.str (notesCoerce (dictGet [("notes", Json.int 5)] "notes"))) :=
  C7_steps_defaulted_notes_coerced "\x7b\"notes\": 5\x7d" [("notes", Json.int 5)] rfl rfl

/-- Claim C9: when the upstream envelope parses as a JSON object without a
`"response"` key, the dispatcher does not fail: `.get("response", "")`
yields `""`, the sanitizer's parse of `""` fails, and the handler answers
with status 200 and the fallback plan. -/
theorem C9_missing_response_field (r : HttpResp) (kvs : List (String × Json))
    (hok : respOk r = true)
    (henv : json_loads r.body = some (.obj kvs))
    (hmiss : dictGet kvs "response" = none) :
    dispatch (.resp r) =
      .ok (.obj [("steps", .arr []),
                 ("notes", .str "LLM output was not valid JSON; falling back to empty plan.")],
          200) := by
  have hresp : dictGetD kvs "response" (.str "") = .str "" := by
    simp [dictGetD, hmiss]
  simp [dispatch, hok, henv, hresp]
  rfl

/-- Witness for C9 at the concrete empty-object envelope. -/
theorem C9_missing_response_field_witness :
    dispatch (.resp ⟨200, "\x7b\x7d"⟩) =
      .ok (.obj [("steps", .arr []),
                 ("notes", .str "LLM output was not valid JSON; falling back to empty plan.")],
          200) :=
  C9_missing_response_field ⟨200, "\x7b\x7d"⟩ [] rfl rfl rfl

/-- Claim C10: on any input whose fence-stripped form parses as a JSON
object, `sanitize` returns that object with only `steps` and `notes`
possibly modified — lookup at every other key is unchanged. -/
theorem C10_other_keys_preserved (raw : String) (kvs : List (String × Json))
    (hp : json_loads (strip_code_fences raw) = some (.obj kvs)) :
    ∃ kvs2, safe_parse_llm_json raw = .ok (.obj kvs2) ∧
      ∀ k, k ≠ "steps" → k ≠ "notes" → dictGet kvs2 k = dictGet kvs k := by
  refine ⟨fixNotes (fixSteps kvs), safe_parse_of_obj raw kvs hp, fun k h1 h2 => ?_⟩
  rw [dictGet_fixNotes_ne _ _ h2, dictGet_fixSteps_ne _ _ h1]

/-- Witness for C10: the unrelated key `"a"` survives sanitization of a
concrete object verbatim. -/
theorem C10_other_keys_preserved_witness :
    ∃ kvs2, safe_parse_llm_json "\x7b\"a\": 1, \"steps\": 3\x7d" = .ok (.obj kvs2) ∧
      dictGet kvs2 "a" = some (.int 1) := by
  obtain ⟨kvs2, h1, h2⟩ :=
    C10_other_keys_preserved "\x7b\"a\": 1, \"steps\": 3\x7d"
      [("a", Json.int 1), ("steps", Json.int 3)] rfl
  exact ⟨kvs2, h1, by rw [h2 "a" (by decide) (by decide)]; rfl⟩

/-- Claim C3, counterexample: an upstream envelope that is valid JSON but
not an object falls under none of the three failure rows, yet the result
is not a sanitized 200 response either — `ollama_json.get` raises
`AttributeError`, so the claimed four-way case split is not exhaustive. -/
theorem C3_nonobject_envelope_counterexample :
    json_loads "[]" = some (.arr []) ∧
    dispatch (.resp ⟨200, "[]"⟩) = .error .attributeError :=
  ⟨rfl, rfl⟩

/-- Claim C3, amended: transport errors, non-success statuses and
unparseable envelopes yield the three fixed 502 fallbacks; an envelope
that parses as an object with a string `"response"` (default `""`) hands
that text to the sanitizer with status 200; but an envelope parsing to a
non-object, or a truthy non-string `"response"` value, instead raises an
unhandled `AttributeError`. -/
theorem C3_dispatch_case_analysis :
    (dispatch .exn =
      .ok (.obj [("steps", .arr []),
                 ("notes", .str "Local LLM server unavailable; use heuristic planner.")], 502)) ∧
    (∀ r, respOk r = false → dispatch (.resp r) =
      .ok (.obj [("steps", .arr []),
                 ("notes", .str "Local LLM returned an error; use heuristic planner.")], 502)) ∧
    (∀ r, respOk r = true → json_loads r.body = none → dispatch (.resp r) =
      .ok (.obj [("steps", .arr []),
                 ("notes", .str "Local LLM responded with invalid JSON; using empty plan.")],
          502)) ∧
    (∀ r kvs s, respOk r = true → json_loads r.body = some (.obj kvs) →
      dictGetD kvs "response" (.str "") = .str s →
      dispatch (.resp r) = (safe_parse_llm_json s).map fun plan => (plan, 200)) ∧
    (∀ r j, respOk r = true → json_loads r.body = some j → jsonIsObj j = false →
      dispatch (.resp r) = .error .attributeError) ∧
    (∀ r kvs v, respOk r = true → json_loads r.body = some (.obj kvs) →
      dictGetD kvs "response" (.str "") = v → jsonIsStr v = false → pyTruthy v = true →
      dispatch (.resp r) = .error .attributeError) := by
  refine ⟨rfl, ?_, ?_, ?_, ?_, ?_⟩
  · intro r h
    simp [dispatch, h]
  · intro r h1 h2
    simp [dispatch, h1, h2]
  · intro r kvs s h1 h2 h3
    simp [dispatch, h1, h2, h3]
  · intro r j h1 h2 h3
    rcases j with _ | b | n | lex | s | xs | kvs <;> simp_all [dispatch, jsonIsObj]
  · intro r kvs v h1 h2 h3 h4 h5
    rcases v with _ | b | n | lex | s | xs | kvs2 <;> simp_all [dispatch, jsonIsStr]

/-- Witness for C3 exercising every hypothesis-bearing case at concrete
inputs. -/
theorem C3_dispatch_case_analysis_witness :
    dispatch (.resp ⟨500, ""⟩) =
      .ok (.obj [("steps", .arr []),
                 ("notes", .str "Local LLM returned an error; use heuristic planner.")], 502) ∧
    dispatch (.resp ⟨200, "oops"⟩) =
      .ok (.obj [("steps", .arr []),
                 ("notes", .str "Local LLM responded with invalid JSON; using empty plan.")],
          502) ∧
    dispatch (.resp ⟨200, "\x7b\"response\": \"\x7b\x7d\"\x7d"⟩) =
      ((safe_parse_llm_json "\x7b\x7d").map fun plan => (plan, 200)) ∧
    dispatch (.resp ⟨200, "true"⟩) = .error .attributeError ∧
    dispatch (.resp ⟨200, "\x7b\"response\": 5\x7d"⟩) = .error .attributeError :=
  ⟨C3_dispatch_case_analysis.2.1 ⟨500, ""⟩ rfl,
   C3_dispatch_case_analysis.2.2.1 ⟨200, "oops"⟩ rfl rfl,
   C3_dispatch_case_analysis.2.2.2.1 ⟨200, "\x7b\"response\": \"\x7b\x7d\"\x7d"⟩
     [("response", .str "\x7b\x7d")] "\x7b\x7d" rfl rfl rfl,
   C3_dispatch_case_analysis.2.2.2.2.1 ⟨200, "true"⟩ (.bool true) rfl rfl rfl,
   C3_dispatch_case_analysis.2.2.2.2.2 ⟨200, "\x7b\"response\": 5\x7d"⟩
     [("response", .int 5)] (.int 5) rfl rfl rfl rfl rfl⟩

set_option maxRecDepth 4096 in
/-- Claim C8: for every `spec` string and every pair of mappings, the built
prompt is a non-empty string containing the literal single-JSON-object-only
instruction, and the builder is deterministic: equal inputs give equal
outputs. -/
theorem C8_prompt_contains_instruction (spec : String)
    (schema context : List (String × Json)) :
    (∃ pre post,
      build_llm_prompt spec schema context = pre ++ jsonOnlyInstruction ++ post) ∧
    build_llm_prompt spec schema context ≠ "" ∧
    (∀ spec2 schema2 context2, spec2 = spec → schema2 = schema → context2 = context →
      build_llm_prompt spec2 schema2 context2 = build_llm_prompt spec schema context) := by
  refine ⟨⟨pyStrip spec ++ "\n\n"
    ++ "You are now running inside a local planning backend.\n"
    ++ "You are given the planner schema and context as JSON.\n"
    ++ "Use them to generate a SHORT sequence of forging operations.\n\n"
    ++ "SCHEMA (operations + paramSchemas + extras):\n"
    ++ pyDumps (Json.obj schema) ++ "\n\n"
    ++ "PLANNER CONTEXT:\n"
    ++ pyDumps (Json.obj context) ++ "\n\n"
    ++ "Output requirements:\n",
    "2. Shape MUST be:\n"
    ++ "   \x7b \"steps\": [ \x7b \"operationType\": string, \"params\": object \x7d ],\n"
    ++ "     \"notes\": \"optional string\" \x7d\n"
    ++ "3. For each step:\n"
    ++ "   - operationType must be one of the known operation ids from schema.operations.\n"
    ++ "   - params keys must come from the canonical paramSchemas for that operation,\n"
    ++ "     plus generic fields like lengthRegion, location, distanceFromEnd,\n"
    ++ "     volumeDeltaOverride, description.\n"
    ++ "4. Use 3–12 steps if possible. Prefer simple, beginner-friendly plans.\n"
    ++ "5. Keep net volume close to the target volume. Small conservative loss is OK.\n"
    ++ "\n"
    ++ "Return ONLY the JSON object. Do NOT wrap it in ```json``` or any other text.",
    ?_⟩, ?_, ?_⟩
  · simp only [build_llm_prompt, jsonOnlyInstruction, String.append_assoc]
  · intro h0
    have h1 := congrArg String.data h0
    simp [build_llm_prompt, String.data_append] at h1
  · intro s2 sc2 c2 h1 h2 h3
    rw [h1, h2, h3]

/-- Claim C6, counterexample: the text consisting of a single triple-backtick
marker line is claimed to collapse to the empty string, but the code's
`len(lines) >= 2` guard returns it unchanged. -/
theorem C6_single_marker_counterexample :
    strip_code_fences "```" = "```" ∧ ("```" : String) ≠ "" :=
  ⟨rfl, by decide⟩

/-- Claim C6, amended: a fenced block made of an opening marker line
(optionally carrying a whitespace-free language tag) immediately followed
by a closing marker line and nothing else collapses to the empty string;
an input consisting of only the single marker line is returned unchanged
rather than emptied. -/
theorem C6_empty_fence_collapses (tag : String) (h : ∀ c ∈ tag.data, pyWs c = false) :
    strip_code_fences ("```" ++ tag ++ "\n```") = "" ∧
    strip_code_fences ("```" ++ tag) = "```" ++ tag := by
  constructor
  · have hdata : ("```" ++ tag ++ "\n```").data =
        '`' :: '`' :: '`' :: (tag.data ++ '\n' :: '`' :: '`' :: '`' :: []) := by
      simp [String.data_append]
    have hne : ¬("```" ++ tag ++ "\n```" = "") := by
      intro h0
      have h1 := congrArg String.data h0
      rw [hdata] at h1
      simp at h1
    have hlast : ('`' :: '`' :: '`' :: (tag.data ++ '\n' :: '`' :: '`' :: '`' :: [])).getLast? =
        some '`' := by
      have hsh : '`' :: '`' :: '`' :: (tag.data ++ '\n' :: '`' :: '`' :: '`' :: []) =
          (['`', '`', '`'] ++ tag.data) ++ ('\n' :: '`' :: '`' :: '`' :: []) := by
        simp
      rw [hsh, List.getLast?_append]
      rfl
    have hstrip : pyStrip ("```" ++ tag ++ "\n```") = "```" ++ tag ++ "\n```" := by
      show String.mk (pyStripL ("```" ++ tag ++ "\n```").data) = _
      rw [hdata, pyStripL_eq_self]
      · rw [← hdata]
      · intro c hc
        rw [List.head?_cons] at hc
        cases hc
        decide
      · intro c hc
        rw [hlast] at hc
        cases hc
        decide
    have hsw : pyStartsWith ("```" ++ tag ++ "\n```") "```" = true := by
      show startsWithL ("```" : String).data ("```" ++ tag ++ "\n```").data = true
      rw [hdata]
      simp [startsWithL]
    have hlines : pySplitlines ("```" ++ tag ++ "\n```") =
        [String.mk ('`' :: '`' :: '`' :: tag.data), "```"] := by
      show pySplitlinesF (("```" ++ tag ++ "\n```").data.length + 1)
          ("```" ++ tag ++ "\n```").data [] = _
      rw [hdata]
      have hlen : ('`' :: '`' :: '`' ::
           (tag.data ++ '\n' :: '`' :: '`' :: '`' :: [])).length + 1 =
          ((tag.data.length + 5) + 2) + 1 := by
        simp [List.length_append]
      rw [hlen]
      rw [pySplitlinesF_step _ _ _ _ (by decide)]
      have e2 : tag.data.length + 5 + 2 = (tag.data.length + 5 + 1) + 1 := by omega
      rw [e2, pySplitlinesF_step _ _ _ _ (by decide)]
      rw [pySplitlinesF_step _ _ _ _ (by decide)]
      rw [pySplitlinesF_nobreak tag.data h 5 _ _]
      simp [pySplitlinesF, pyLineSep, List.reverse_append]
    have hsw0 : pyStartsWith (String.mk ('`' :: '`' :: '`' :: tag.data)) "```" = true := by
      show startsWithL ("```" : String).data ('`' :: '`' :: '`' :: tag.data) = true
      simp [startsWithL]
    unfold strip_code_fences
    rw [if_neg hne]
    simp only [hstrip, hsw, hlines]
    simp [hsw0]
    rfl
  · have hdata : ("```" ++ tag).data = '`' :: '`' :: '`' :: tag.data := by
      simp [String.data_append]
    have hne : ¬("```" ++ tag = "") := by
      intro h0
      have h1 := congrArg String.data h0
      rw [hdata] at h1
      simp at h1
    have hlast : ∀ c, ('`' :: '`' :: '`' :: tag.data).getLast? = some c → pyWs c = false := by
      intro c hc
      rcases htd : tag.data with _ | ⟨d, ds⟩
      · rw [htd] at hc
        cases hc
        decide
      · rw [htd, List.getLast?_cons_cons, List.getLast?_cons_cons,
          List.getLast?_cons_cons] at hc
        have hmem : c ∈ tag.data := by
          rw [htd]
          exact mem_of_getLastEq _ _ hc
        exact h c hmem
    have hstrip : pyStrip ("```" ++ tag) = "```" ++ tag := by
      show String.mk (pyStripL ("```" ++ tag).data) = _
      rw [hdata, pyStripL_eq_self]
      · rw [← hdata]
      · intro c hc
        rw [List.head?_cons] at hc
        cases hc
        decide
      · exact hlast
    have hsw : pyStartsWith ("```" ++ tag) "```" = true := by
      show startsWithL ("```" : String).data ("```" ++ tag).data = true
      rw [hdata]
      simp [startsWithL]
    have hlines : pySplitlines ("```" ++ tag) =
        [String.mk ('`' :: '`' :: '`' :: tag.data)] := by
      show pySplitlinesF (("```" ++ tag).data.length + 1) ("```" ++ tag).data [] = _
      rw [hdata]
      have hlen : ('`' :: '`' :: '`' :: tag.data).length + 1 =
          ((tag.data.length + 1) + 2) + 1 := by
        simp
      rw [hlen]
      rw [pySplitlinesF_step _ _ _ _ (by decide)]
      have e2 : tag.data.length + 1 + 2 = (tag.data.length + 1 + 1) + 1 := by omega
      rw [e2, pySplitlinesF_step _ _ _ _ (by decide)]
      rw [pySplitlinesF_step _ _ _ _ (by decide)]
      rw [pySplitlinesF_consume tag.data h 1 _]
      simp [pySplitlinesF, List.reverse_append]
    unfold strip_code_fences
    rw [if_neg hne]
    simp only [hstrip, hsw, hlines]
    simp

/-- Witness for C6 at the concrete language tag `"json"`. -/
theorem C6_empty_fence_collapses_witness :
    strip_code_fences ("```" ++ "json" ++ "\n```") = "" ∧
    strip_code_fences ("```" ++ "json") = "```" ++ "json" :=
  C6_empty_fence_collapses "json" (by decide)

/-- Witness for C8, applying the theorem at the empty spec and empty
mappings and discharging the determinism hypotheses. -/
theorem C8_prompt_contains_instruction_witness :
    build_llm_prompt "" [] [] ≠ "" ∧
    build_llm_prompt "" [] [] = build_llm_prompt "" [] [] :=
  ⟨(C8_prompt_contains_instruction "" [] []).2.1,
   (C8_prompt_contains_instruction "" [] []).2.2 "" [] [] rfl rfl rfl⟩
